import Mathlib

/-!
Verification of the datastore orchestration layer of chatbot_ner
(`datastore/datastore.py`), shallowly embedded in Lean 4.

The `DataStore` class wraps a search-engine backend.  We embed its
configuration reading, connection lifecycle and every public operation as
pure Lean functions.  Backend effects (the external `elastic_search`
package) are represented by:
  * a `Backend` record of oracles (whether `connect` yields a handle,
    what `get_current_live_index` returns or whether it raises, what
    `get_es_url` returns), and
  * an `ESCall` trace listing each backend primitive invoked together
    with the index name and doc type it was addressed to.
Each operation returns `Except DSError (DataStore × List ESCall × RetVal)`:
the post state, the ordered list of backend calls it issued, and its
Python return value (`None`, `{}`, `OrderedDict()` or a backend result).
-/

namespace ChatbotNer

/-- `datastore.constants.ELASTICSEARCH`, the only implemented engine name. -/
def ELASTICSEARCH : String := "elasticsearch"

/-- The per-engine connection settings dictionary
(`CHATBOT_NER_DATASTORE.get(engine)`).  Each optional field models the
presence or absence of the corresponding key. -/
structure ConnectionSettings where
  index_name : Option String := none
  doc_type : Option String := none
  crf_index_name : Option String := none
  crf_doc_type : Option String := none
  connection_url : Option String := none
  destination_url : Option String := none
  request_timeout : Option Nat := none
deriving Repr, DecidableEq

/-- The global configuration dictionary `CHATBOT_NER_DATASTORE`:
the `ENGINE` key plus per-engine settings objects keyed by engine name. -/
structure NerConfig where
  engine : Option String := none
  settings : List (String × ConnectionSettings) := []
deriving Repr, DecidableEq

/-- `CHATBOT_NER_DATASTORE.get(name)` for a per-engine settings object. -/
def NerConfig.lookup (cfg : NerConfig) (name : String) : Option ConnectionSettings :=
  (cfg.settings.lookup name)

/-- The exceptions raised by the datastore layer.  `backendFailure` stands
for an arbitrary exception escaping a backend primitive (here: a failing
`get_current_live_index`); `pyAttributeError` models calling `.get` on a
`None` settings object. -/
inductive DSError where
  | improperlyConfigured (msg : Option String)
  | engineNotImplemented
  | engineConnection (engine : String)
  | nonESEngineTransfer
  | indexNotFound (msg : String)
  | backendFailure
  | pyAttributeError
deriving Repr, DecidableEq

/-- One backend primitive call, recording the physical index name (and,
where the source passes one, the doc type and entity name) it addresses. -/
inductive ESCall where
  | connect
  | createEntityIndex (index_name doc_type : String)
  | createCrfIndex (index_name doc_type : String)
  | deleteIndex (index_name : String)
  | existsIndex (index_name : String)
  | createAllDictionaryData (index_name doc_type : String)
  | recreateAllDictionaryData (index_name doc_type : String)
  | dictionaryQuery (index_name doc_type entity_name : String)
  | fullTextQuery (index_name doc_type entity_name : String)
  | deleteEntityByName (index_name doc_type entity_name : String)
  | entityDataUpdate (index_name doc_type entity_name : String)
  | getEntitySupportedLanguages (index_name doc_type entity_name : String)
  | getEntityUniqueValues (index_name doc_type entity_name : String)
  | deleteEntityDataByValues (index_name doc_type entity_name : String)
  | addEntityData (index_name doc_type entity_name : String)
  | getEntityData (index_name doc_type entity_name : String)
  | getCurrentLiveIndex (store_name : String)
  | getCrfDataForEntityName (index_name doc_type entity_name : String)
  | updateEntityCrfDataPopulate (index_name doc_type entity_name : String)
deriving Repr, DecidableEq

/-- The Python value returned by an operation: `None`, a fresh `{}`, a
fresh `collections.OrderedDict()`, or the result of a backend query. -/
inductive RetVal where
  | pyNone
  | emptyDict
  | emptyOrderedDict
  | fromBackend (c : ESCall)
deriving Repr, DecidableEq

/-- Oracles describing the external `elastic_search` package:
whether `connect.connect(**settings)` returns a non-None handle, what
`connect.get_current_live_index(name)` returns (`none` = it raises), and
what `connect.get_es_url()` returns. -/
structure Backend where
  connect_ok : Bool
  live_index : String → Option String
  es_url : Option String := none

/-- The Python object state: engine name, settings object, `_store_name`
and whether `_client_or_connection` is non-None. -/
structure DataStore where
  engine : String
  conn_settings : ConnectionSettings
  store_name : String
  connected : Bool
deriving Repr, DecidableEq

/-- `DataStore._connect`: for the elasticsearch engine, set `_store_name`
from settings (default `"_all"`) and obtain a client handle; any other
engine raises `EngineNotImplementedException`; a `None` handle raises
`EngineConnectionException`. -/
def DataStore.connectES (ds : DataStore) (be : Backend) :
    Except DSError (DataStore × List ESCall) :=
  if ds.engine = ELASTICSEARCH then
    if be.connect_ok then
      Except.ok
        ({ ds with
            store_name := ds.conn_settings.index_name.getD "_all",
            connected := true },
          [ESCall.connect])
    else
      Except.error (DSError.engineConnection ds.engine)
  else
    Except.error DSError.engineNotImplemented

/-- The `if self._client_or_connection is None: self._connect()` prologue
shared by the public operations. -/
def DataStore.ensureConnected (ds : DataStore) (be : Backend) :
    Except DSError (DataStore × List ESCall) :=
  if ds.connected then Except.ok (ds, []) else ds.connectES be

/-- `DataStore.__init__`: read the engine key and its settings object
(absence of either raises `DataStoreSettingsImproperlyConfiguredException`),
then call `_connect()`. -/
def DataStore.init (cfg : NerConfig) (be : Backend) :
    Except DSError (DataStore × List ESCall) :=
  match cfg.engine with
  | none => Except.error (DSError.improperlyConfigured none)
  | some eng =>
    match cfg.lookup eng with
    | none => Except.error (DSError.improperlyConfigured none)
    | some cs =>
      DataStore.connectES
        { engine := eng, conn_settings := cs, store_name := "", connected := false } be

/-- Message of `_check_doc_type_for_elasticsearch`. -/
def dictDocTypeMsg : Option String :=
  some "Elasticsearch needs doc_type. Please configure ES_DOC_TYPE in your environment"

/-- Message of `_check_doc_type_for_crf_data_elasticsearch`. -/
def crfDocTypeMsg : Option String :=
  some "Elasticsearch training data needs doc_type. Please configure ES_TRAINING_DATA_DOC_TYPE in your environment"

/-- Message of the missing-CRF-index `IndexNotFoundException`. -/
def crfIndexMsg : String :=
  "Index for ELASTICSEARCH_CRF_DATA_INDEX_NAME not found. Please configure the same"

/-- `DataStore._check_doc_type_for_elasticsearch`. -/
def DataStore.check_doc_type (ds : DataStore) : Except DSError String :=
  match ds.conn_settings.doc_type with
  | none => Except.error (DSError.improperlyConfigured dictDocTypeMsg)
  | some dt => Except.ok dt

/-- `DataStore._check_doc_type_for_crf_data_elasticsearch`. -/
def DataStore.check_doc_type_crf (ds : DataStore) : Except DSError String :=
  match ds.conn_settings.crf_doc_type with
  | none => Except.error (DSError.improperlyConfigured crfDocTypeMsg)
  | some dt => Except.ok dt

/-- Modelled from the spec: the physical index state of the search-engine
cluster, needed because `datastore/elastic_search/create.py` (the
`create_entity_index`, `create_crf_index`, `delete_index` and `exists`
primitives) is not among the provided sources.  The spec says `create`
and `delete` "must tolerate already exists / not found backend responses
as success" (the source forwards `ignore=[400, 404]`), so creating an
existing index and deleting a missing one are successful no-ops. -/
structure ESState where
  indices : List String
deriving Repr, DecidableEq

/-- Modelled from the spec: `elastic_search.create.create_entity_index` /
`create_crf_index` with `ignore=[400, 404]` — provision the index;
an "already exists" response is swallowed. -/
def ESState.createIndex (es : ESState) (name : String) : ESState :=
  if name ∈ es.indices then es else { indices := name :: es.indices }

/-- Modelled from the spec: `elastic_search.create.delete_index` with
`ignore=[400, 404]` — drop the index; a "not found" response is swallowed. -/
def ESState.deleteIndex (es : ESState) (name : String) : ESState :=
  { indices := es.indices.filter (fun n => n ≠ name) }

/-- Modelled from the spec: `elastic_search.create.exists`. -/
def ESState.existsIndex (es : ESState) (name : String) : Bool :=
  name ∈ es.indices

/-- `DataStore.create`: ensure connected; for elasticsearch check the
dictionary doc type, create the entity index (ignoring 400/404), and, only
when a CRF index name is configured, check the CRF doc type and create the
CRF index too. -/
def DataStore.create (ds : DataStore) (be : Backend) (es : ESState) :
    Except DSError (DataStore × ESState × List ESCall) := do
  let (ds, t) ← ds.ensureConnected be
  if ds.engine = ELASTICSEARCH then
    let dt ← ds.check_doc_type
    let es1 := es.createIndex ds.store_name
    let t1 := t ++ [ESCall.createEntityIndex ds.store_name dt]
    match ds.conn_settings.crf_index_name with
    | none => Except.ok (ds, es1, t1)
    | some crfIdx =>
      let cdt ← ds.check_doc_type_crf
      Except.ok (ds, es1.createIndex crfIdx, t1 ++ [ESCall.createCrfIndex crfIdx cdt])
  else
    Except.ok (ds, es, t)

/-- `DataStore.delete`: ensure connected; for elasticsearch drop the index
named `_store_name` with `ignore=[400, 404]` — no doc-type check. -/
def DataStore.delete (ds : DataStore) (be : Backend) (es : ESState) :
    Except DSError (DataStore × ESState × List ESCall) := do
  let (ds, t) ← ds.ensureConnected be
  if ds.engine = ELASTICSEARCH then
    Except.ok (ds, es.deleteIndex ds.store_name, t ++ [ESCall.deleteIndex ds.store_name])
  else
    Except.ok (ds, es, t)

/-- `DataStore.exists`: ensure connected; for elasticsearch report whether
the index named `_store_name` exists, otherwise return `False`. -/
def DataStore.existsOp (ds : DataStore) (be : Backend) (es : ESState) :
    Except DSError (DataStore × Bool × List ESCall) := do
  let (ds, t) ← ds.ensureConnected be
  if ds.engine = ELASTICSEARCH then
    Except.ok (ds, es.existsIndex ds.store_name, t ++ [ESCall.existsIndex ds.store_name])
  else
    Except.ok (ds, false, t)

/-- `DataStore.populate`: ensure connected; for elasticsearch check the
doc type and bulk-load into the index named `_store_name`. -/
def DataStore.populate (ds : DataStore) (be : Backend) :
    Except DSError (DataStore × List ESCall × RetVal) := do
  let (ds, t) ← ds.ensureConnected be
  if ds.engine = ELASTICSEARCH then
    let dt ← ds.check_doc_type
    Except.ok (ds, t ++ [ESCall.createAllDictionaryData ds.store_name dt], RetVal.pyNone)
  else
    Except.ok (ds, t, RetVal.pyNone)

/-- `DataStore.repopulate`: ensure connected; for elasticsearch check the
doc type and recreate all dictionary data in the index named `_store_name`. -/
def DataStore.repopulate (ds : DataStore) (be : Backend) :
    Except DSError (DataStore × List ESCall × RetVal) := do
  let (ds, t) ← ds.ensureConnected be
  if ds.engine = ELASTICSEARCH then
    let dt ← ds.check_doc_type
    Except.ok (ds, t ++ [ESCall.recreateAllDictionaryData ds.store_name dt], RetVal.pyNone)
  else
    Except.ok (ds, t, RetVal.pyNone)

/-- `DataStore.get_entity_dictionary`: initialise `results_dictionary = {}`;
for elasticsearch check the doc type and run `dictionary_query` against the
index named `_store_name`; return the (possibly still empty) dictionary. -/
def DataStore.get_entity_dictionary (ds : DataStore) (be : Backend) (entity_name : String) :
    Except DSError (DataStore × List ESCall × RetVal) := do
  let (ds, t) ← ds.ensureConnected be
  if ds.engine = ELASTICSEARCH then
    let dt ← ds.check_doc_type
    let c := ESCall.dictionaryQuery ds.store_name dt entity_name
    Except.ok (ds, t ++ [c], RetVal.fromBackend c)
  else
    Except.ok (ds, t, RetVal.emptyDict)

/-- `DataStore.get_similar_dictionary`: initialise
`results_dictionary = collections.OrderedDict()`; for elasticsearch check
the doc type and run `full_text_query` against the index named
`_store_name`; return the (possibly still empty) ordered dictionary. -/
def DataStore.get_similar_dictionary (ds : DataStore) (be : Backend) (entity_name : String) :
    Except DSError (DataStore × List ESCall × RetVal) := do
  let (ds, t) ← ds.ensureConnected be
  if ds.engine = ELASTICSEARCH then
    let dt ← ds.check_doc_type
    let c := ESCall.fullTextQuery ds.store_name dt entity_name
    Except.ok (ds, t ++ [c], RetVal.fromBackend c)
  else
    Except.ok (ds, t, RetVal.emptyOrderedDict)

/-- `DataStore.delete_entity`: ensure connected; for elasticsearch check
the doc type and run `delete_entity_by_name` against the index named
`_store_name` (the logical name — no live-index resolution). -/
def DataStore.delete_entity (ds : DataStore) (be : Backend) (entity_name : String) :
    Except DSError (DataStore × List ESCall × RetVal) := do
  let (ds, t) ← ds.ensureConnected be
  if ds.engine = ELASTICSEARCH then
    let dt ← ds.check_doc_type
    Except.ok (ds, t ++ [ESCall.deleteEntityByName ds.store_name dt entity_name], RetVal.pyNone)
  else
    Except.ok (ds, t, RetVal.pyNone)

/-- `DataStore.update_entity_data`: ensure connected; for elasticsearch
check the doc type, then `try: update_index = get_current_live_index(name)
except Exception: update_index = name`, and run `entity_data_update`
against the resolved index. -/
def DataStore.update_entity_data (ds : DataStore) (be : Backend) (entity_name : String) :
    Except DSError (DataStore × List ESCall × RetVal) := do
  let (ds, t) ← ds.ensureConnected be
  if ds.engine = ELASTICSEARCH then
    let dt ← ds.check_doc_type
    let update_index := (be.live_index ds.store_name).getD ds.store_name
    Except.ok (ds,
      t ++ [ESCall.getCurrentLiveIndex ds.store_name,
            ESCall.entityDataUpdate update_index dt entity_name],
      RetVal.pyNone)
  else
    Except.ok (ds, t, RetVal.pyNone)

/-- `DataStore.get_entity_supported_languages`: ensure connected; for
elasticsearch check the doc type, run the query against the index named
`_store_name` and return its result; otherwise fall off the end of the
function (Python returns `None`). -/
def DataStore.get_entity_supported_languages (ds : DataStore) (be : Backend)
    (entity_name : String) :
    Except DSError (DataStore × List ESCall × RetVal) := do
  let (ds, t) ← ds.ensureConnected be
  if ds.engine = ELASTICSEARCH then
    let dt ← ds.check_doc_type
    let c := ESCall.getEntitySupportedLanguages ds.store_name dt entity_name
    Except.ok (ds, t ++ [c], RetVal.fromBackend c)
  else
    Except.ok (ds, t, RetVal.pyNone)

/-- `DataStore.get_entity_unique_values`: ensure connected; for
elasticsearch check the doc type, run the query against the index named
`_store_name` and return its result; otherwise Python returns `None`. -/
def DataStore.get_entity_unique_values (ds : DataStore) (be : Backend) (entity_name : String) :
    Except DSError (DataStore × List ESCall × RetVal) := do
  let (ds, t) ← ds.ensureConnected be
  if ds.engine = ELASTICSEARCH then
    let dt ← ds.check_doc_type
    let c := ESCall.getEntityUniqueValues ds.store_name dt entity_name
    Except.ok (ds, t ++ [c], RetVal.fromBackend c)
  else
    Except.ok (ds, t, RetVal.pyNone)

/-- `DataStore.delete_entity_data_by_values`: ensure connected; for
elasticsearch check the doc type, resolve the live index with NO exception
handler (a failing resolution propagates), and delete against the resolved
index. -/
def DataStore.delete_entity_data_by_values (ds : DataStore) (be : Backend)
    (entity_name : String) :
    Except DSError (DataStore × List ESCall × RetVal) := do
  let (ds, t) ← ds.ensureConnected be
  if ds.engine = ELASTICSEARCH then
    let dt ← ds.check_doc_type
    match be.live_index ds.store_name with
    | none => Except.error DSError.backendFailure
    | some update_index =>
      Except.ok (ds,
        t ++ [ESCall.getCurrentLiveIndex ds.store_name,
              ESCall.deleteEntityDataByValues update_index dt entity_name],
        RetVal.pyNone)
  else
    Except.ok (ds, t, RetVal.pyNone)

/-- `DataStore.add_entity_data`: ensure connected; for elasticsearch check
the doc type, resolve the live index with NO exception handler (a failing
resolution propagates), and add records against the resolved index. -/
def DataStore.add_entity_data (ds : DataStore) (be : Backend) (entity_name : String) :
    Except DSError (DataStore × List ESCall × RetVal) := do
  let (ds, t) ← ds.ensureConnected be
  if ds.engine = ELASTICSEARCH then
    let dt ← ds.check_doc_type
    match be.live_index ds.store_name with
    | none => Except.error DSError.backendFailure
    | some update_index =>
      Except.ok (ds,
        t ++ [ESCall.getCurrentLiveIndex ds.store_name,
              ESCall.addEntityData update_index dt entity_name],
        RetVal.pyNone)
  else
    Except.ok (ds, t, RetVal.pyNone)

/-- `DataStore.get_entity_data`: ensure connected; for elasticsearch check
the doc type, run the query against the index named `_store_name` and
return its result; otherwise Python returns `None`. -/
def DataStore.get_entity_data (ds : DataStore) (be : Backend) (entity_name : String) :
    Except DSError (DataStore × List ESCall × RetVal) := do
  let (ds, t) ← ds.ensureConnected be
  if ds.engine = ELASTICSEARCH then
    let dt ← ds.check_doc_type
    let c := ESCall.getEntityData ds.store_name dt entity_name
    Except.ok (ds, t ++ [c], RetVal.fromBackend c)
  else
    Except.ok (ds, t, RetVal.pyNone)

/-- `DataStore.get_crf_data_for_entity_name`: ensure connected;
`results_dictionary = {}`; for elasticsearch require the CRF index name
(else `IndexNotFoundException`), then the CRF doc type (else
`DataStoreSettingsImproperlyConfiguredException`), then query that index. -/
def DataStore.get_crf_data_for_entity_name (ds : DataStore) (be : Backend)
    (entity_name : String) :
    Except DSError (DataStore × List ESCall × RetVal) := do
  let (ds, t) ← ds.ensureConnected be
  if ds.engine = ELASTICSEARCH then
    match ds.conn_settings.crf_index_name with
    | none => Except.error (DSError.indexNotFound crfIndexMsg)
    | some es_training_index =>
      let cdt ← ds.check_doc_type_crf
      let c := ESCall.getCrfDataForEntityName es_training_index cdt entity_name
      Except.ok (ds, t ++ [c], RetVal.fromBackend c)
  else
    Except.ok (ds, t, RetVal.emptyDict)

/-- `DataStore.update_entity_crf_data`: ensure connected; for elasticsearch
FIRST check the CRF doc type (else
`DataStoreSettingsImproperlyConfiguredException`), THEN require the CRF
index name (else `IndexNotFoundException`), then populate that index. -/
def DataStore.update_entity_crf_data (ds : DataStore) (be : Backend) (entity_name : String) :
    Except DSError (DataStore × List ESCall × RetVal) := do
  let (ds, t) ← ds.ensureConnected be
  if ds.engine = ELASTICSEARCH then
    let cdt ← ds.check_doc_type_crf
    match ds.conn_settings.crf_index_name with
    | none => Except.error (DSError.indexNotFound crfIndexMsg)
    | some es_training_index =>
      Except.ok (ds,
        t ++ [ESCall.updateEntityCrfDataPopulate es_training_index cdt entity_name],
        RetVal.pyNone)
  else
    Except.ok (ds, t, RetVal.pyNone)

/-- The `ESTransfer(source, destination)` call issued by the transfer
operation: source URL and (possibly absent) destination URL. -/
structure TransferCall where
  source : String
  destination : Option String
deriving Repr, DecidableEq

/-- `DataStore.transfer_entities_elastic_search`: raise
`NonESEngineTransferException` unless the engine is elasticsearch; read
`connection_url` from the global config (falling back to
`elastic_search.connect.get_es_url()`), raising
`DataStoreSettingsImproperlyConfiguredException` when both are absent;
read `destination_url` from the global config.  Note: it never touches
`_client_or_connection` and issues no connect. -/
def DataStore.transfer_entities_elastic_search (ds : DataStore) (cfg : NerConfig)
    (be : Backend) :
    Except DSError (DataStore × List ESCall × TransferCall) :=
  if ds.engine ≠ ELASTICSEARCH then
    Except.error DSError.nonESEngineTransfer
  else
    match cfg.lookup ds.engine with
    | none => Except.error DSError.pyAttributeError
    | some cs =>
      let es_url := match cs.connection_url with
        | some u => some u
        | none => be.es_url
      match es_url with
      | none => Except.error (DSError.improperlyConfigured none)
      | some src =>
        Except.ok (ds, [], { source := src, destination := cs.destination_url })

/-! ### Concrete fixtures used by counterexamples and witnesses -/

/-- A fully populated elasticsearch settings object. -/
def demoSettings : ConnectionSettings :=
  { index_name := some "entities", doc_type := some "data",
    crf_index_name := some "crf_index", crf_doc_type := some "crf_data",
    connection_url := some "http://source:9200",
    destination_url := some "http://dest:9200",
    request_timeout := none }

/-- A global configuration selecting elasticsearch with `demoSettings`. -/
def demoConfig : NerConfig :=
  { engine := some ELASTICSEARCH, settings := [(ELASTICSEARCH, demoSettings)] }

/-- A connected store built over `demoSettings`. -/
def demoStore : DataStore :=
  { engine := ELASTICSEARCH, conn_settings := demoSettings,
    store_name := "entities", connected := true }

/-- The same store with no client handle (`_client_or_connection is None`). -/
def discStore : DataStore := { demoStore with connected := false }

/-- A backend whose live-index pointer maps every logical name to
`"entities_v2"` (a blue/green rebuild in progress). -/
def demoBackend : Backend :=
  { connect_ok := true, live_index := fun _ => some "entities_v2",
    es_url := some "http://disc:9200" }

/-- A backend whose `get_current_live_index` raises on every name. -/
def failBackend : Backend :=
  { connect_ok := true, live_index := fun _ => none, es_url := none }

/-! ### C1 — read/write index targeting -/

/-- C1 counterexample: the claim says `delete_entity` addresses the index
obtained by resolving the live-index pointer.  On a store whose logical
name is `"entities"` while the backend resolves the live pointer to
`"entities_v2"`, `delete_entity` issues its only backend data call against
`"entities"`, the logical name — not the resolved `"entities_v2"`. -/
theorem C1_counterexample :
    demoBackend.live_index demoStore.store_name = some "entities_v2" ∧
    DataStore.delete_entity demoStore demoBackend "city" =
      Except.ok (demoStore,
        ([ESCall.deleteEntityByName "entities" "data" "city"], RetVal.pyNone)) ∧
    "entities" ≠ "entities_v2" :=
  ⟨rfl, rfl, by decide⟩

/-- C1 (amended): every read operation (`get_entity_dictionary`,
`get_similar_dictionary`, `get_entity_unique_values`,
`get_entity_supported_languages`, `get_entity_data`) addresses the logical
store name; the three mutations `add_entity_data`, `update_entity_data`
and `delete_entity_data_by_values` address the index the live-index
pointer resolves to; the bulk entity-level delete `delete_entity`
addresses the logical store name directly, not the resolved index. -/
theorem C1_read_write_targets (ds : DataStore) (be : Backend) (en li dt : String)
    (hc : ds.connected = true) (he : ds.engine = ELASTICSEARCH)
    (hdt : ds.conn_settings.doc_type = some dt)
    (hli : be.live_index ds.store_name = some li) :
    ds.get_entity_dictionary be en =
      Except.ok (ds, ([ESCall.dictionaryQuery ds.store_name dt en],
        RetVal.fromBackend (ESCall.dictionaryQuery ds.store_name dt en))) ∧
    ds.get_similar_dictionary be en =
      Except.ok (ds, ([ESCall.fullTextQuery ds.store_name dt en],
        RetVal.fromBackend (ESCall.fullTextQuery ds.store_name dt en))) ∧
    ds.get_entity_unique_values be en =
      Except.ok (ds, ([ESCall.getEntityUniqueValues ds.store_name dt en],
        RetVal.fromBackend (ESCall.getEntityUniqueValues ds.store_name dt en))) ∧
    ds.get_entity_supported_languages be en =
      Except.ok (ds, ([ESCall.getEntitySupportedLanguages ds.store_name dt en],
        RetVal.fromBackend (ESCall.getEntitySupportedLanguages ds.store_name dt en))) ∧
    ds.get_entity_data be en =
      Except.ok (ds, ([ESCall.getEntityData ds.store_name dt en],
        RetVal.fromBackend (ESCall.getEntityData ds.store_name dt en))) ∧
    ds.add_entity_data be en =
      Except.ok (ds, ([ESCall.getCurrentLiveIndex ds.store_name,
        ESCall.addEntityData li dt en], RetVal.pyNone)) ∧
    ds.update_entity_data be en =
      Except.ok (ds, ([ESCall.getCurrentLiveIndex ds.store_name,
        ESCall.entityDataUpdate li dt en], RetVal.pyNone)) ∧
    ds.delete_entity_data_by_values be en =
      Except.ok (ds, ([ESCall.getCurrentLiveIndex ds.store_name,
        ESCall.deleteEntityDataByValues li dt en], RetVal.pyNone)) ∧
    ds.delete_entity be en =
      Except.ok (ds, ([ESCall.deleteEntityByName ds.store_name dt en], RetVal.pyNone)) := by
  simp [DataStore.get_entity_dictionary, DataStore.get_similar_dictionary,
    DataStore.get_entity_unique_values, DataStore.get_entity_supported_languages,
    DataStore.get_entity_data, DataStore.add_entity_data, DataStore.update_entity_data,
    DataStore.delete_entity_data_by_values, DataStore.delete_entity,
    DataStore.ensureConnected, DataStore.check_doc_type, bind, Except.bind,
    hc, he, hdt, hli]

/-- C1 witness: the amended theorem applied to the concrete connected
store and rebuild-in-progress backend. -/
theorem C1_witness :
    DataStore.add_entity_data demoStore demoBackend "city" =
      Except.ok (demoStore, ([ESCall.getCurrentLiveIndex demoStore.store_name,
        ESCall.addEntityData "entities_v2" "data" "city"], RetVal.pyNone)) :=
  (C1_read_write_targets demoStore demoBackend "city" "entities_v2" "data"
    rfl rfl rfl rfl).2.2.2.2.2.1

/-! ### C2 — fallback on failing live-index resolution -/

/-- C2 counterexample: the claim says that when live-index resolution
raises, `add_entity_data` falls back to the logical store name.  On a
connected, fully configured store with a backend whose
`get_current_live_index` raises, `add_entity_data` propagates the error
to the caller instead. -/
theorem C2_counterexample :
    DataStore.add_entity_data demoStore failBackend "city" =
      Except.error DSError.backendFailure :=
  rfl

/-- C2 (amended): when live-index resolution fails, only
`update_entity_data` falls back to the logical store name (its resolution
sits in a try/except block); `add_entity_data` and
`delete_entity_data_by_values` propagate the resolution error. -/
theorem C2_fallback_only_in_update (ds : DataStore) (be : Backend) (en dt : String)
    (hc : ds.connected = true) (he : ds.engine = ELASTICSEARCH)
    (hdt : ds.conn_settings.doc_type = some dt)
    (hfail : be.live_index ds.store_name = none) :
    ds.update_entity_data be en =
      Except.ok (ds, ([ESCall.getCurrentLiveIndex ds.store_name,
        ESCall.entityDataUpdate ds.store_name dt en], RetVal.pyNone)) ∧
    ds.add_entity_data be en = Except.error DSError.backendFailure ∧
    ds.delete_entity_data_by_values be en = Except.error DSError.backendFailure := by
  simp [DataStore.update_entity_data, DataStore.add_entity_data,
    DataStore.delete_entity_data_by_values, DataStore.ensureConnected,
    DataStore.check_doc_type, bind, Except.bind, hc, he, hdt, hfail]

/-- C2 witness: the amended theorem applied to the concrete store and the
backend whose live-index resolution raises. -/
theorem C2_witness :
    DataStore.update_entity_data demoStore failBackend "city" =
      Except.ok (demoStore, ([ESCall.getCurrentLiveIndex demoStore.store_name,
        ESCall.entityDataUpdate demoStore.store_name "data" "city"], RetVal.pyNone)) :=
  (C2_fallback_only_in_update demoStore failBackend "city" "data" rfl rfl rfl rfl).1

/-! ### C3 — CRF-corpus error taxonomy -/

/-- A connected store with a CRF index name configured but no CRF doc
type. -/
def noCrfDocStore : DataStore :=
  { engine := ELASTICSEARCH,
    conn_settings := { index_name := some "entities", doc_type := some "data",
                       crf_index_name := some "crf_index" },
    store_name := "entities", connected := true }

/-- A connected store with neither CRF index name nor CRF doc type. -/
def noCrfStore : DataStore :=
  { engine := ELASTICSEARCH,
    conn_settings := { index_name := some "entities", doc_type := some "data" },
    store_name := "entities", connected := true }

/-- C3 counterexample: the claim says a missing CRF document type makes
CRF operations fail with `IndexNotFoundException`.  On a store whose CRF
index name is configured but whose CRF doc type is absent,
`get_crf_data_for_entity_name` raises
`DataStoreSettingsImproperlyConfiguredException` — the general
configuration error — not `IndexNotFoundException`. -/
theorem C3_counterexample :
    DataStore.get_crf_data_for_entity_name noCrfDocStore demoBackend "city" =
      Except.error (DSError.improperlyConfigured crfDocTypeMsg) ∧
    (∀ m, DSError.improperlyConfigured crfDocTypeMsg ≠ DSError.indexNotFound m) :=
  ⟨rfl, fun _ h => DSError.noConfusion h⟩

/-- C3 (amended): a missing CRF index name makes both CRF operations fail
with `IndexNotFoundException`, but a missing CRF document type makes them
fail with the general `DataStoreSettingsImproperlyConfiguredException`
(in `update_entity_crf_data` the doc-type check even runs before the
index check); dictionary operations are unaffected by the absence of
either CRF setting. -/
theorem C3_crf_error_taxonomy (ds : DataStore) (be : Backend) (en : String)
    (hc : ds.connected = true) (he : ds.engine = ELASTICSEARCH) :
    (ds.conn_settings.crf_index_name = none →
      ds.get_crf_data_for_entity_name be en =
        Except.error (DSError.indexNotFound crfIndexMsg)) ∧
    (ds.conn_settings.crf_doc_type = none →
      ds.conn_settings.crf_index_name ≠ none →
      ds.get_crf_data_for_entity_name be en =
        Except.error (DSError.improperlyConfigured crfDocTypeMsg)) ∧
    (ds.conn_settings.crf_doc_type = none →
      ds.update_entity_crf_data be en =
        Except.error (DSError.improperlyConfigured crfDocTypeMsg)) ∧
    (∀ c, ds.conn_settings.crf_doc_type = some c →
      ds.conn_settings.crf_index_name = none →
      ds.update_entity_crf_data be en =
        Except.error (DSError.indexNotFound crfIndexMsg)) ∧
    (∀ dt, ds.conn_settings.doc_type = some dt →
      ds.get_entity_dictionary be en =
        Except.ok (ds, ([ESCall.dictionaryQuery ds.store_name dt en],
          RetVal.fromBackend (ESCall.dictionaryQuery ds.store_name dt en)))) := by
  refine ⟨fun h1 => ?_, fun h2 h2i => ?_, fun h3 => ?_, fun c h4 h4i => ?_, fun dt h5 => ?_⟩
  · simp [DataStore.get_crf_data_for_entity_name, DataStore.ensureConnected,
      DataStore.check_doc_type_crf, bind, Except.bind, hc, he, h1]
  · rcases hi : ds.conn_settings.crf_index_name with _ | i
    · exact absurd hi h2i
    · simp [DataStore.get_crf_data_for_entity_name, DataStore.ensureConnected,
        DataStore.check_doc_type_crf, bind, Except.bind, hc, he, h2, hi]
  · simp [DataStore.update_entity_crf_data, DataStore.ensureConnected,
      DataStore.check_doc_type_crf, bind, Except.bind, hc, he, h3]
  · simp [DataStore.update_entity_crf_data, DataStore.ensureConnected,
      DataStore.check_doc_type_crf, bind, Except.bind, hc, he, h4, h4i]
  · simp [DataStore.get_entity_dictionary, DataStore.ensureConnected,
      DataStore.check_doc_type, bind, Except.bind, hc, he, h5]

/-- C3 witness: the amended theorem applied to a concrete store with no
CRF index name configured. -/
theorem C3_witness :
    DataStore.get_crf_data_for_entity_name noCrfStore demoBackend "city" =
      Except.error (DSError.indexNotFound crfIndexMsg) :=
  (C3_crf_error_taxonomy noCrfStore demoBackend "city" rfl rfl).1 rfl

/-! ### C4 — connectivity guarantee before dispatch -/

/-- C4 counterexample: the claim says every public operation, including
`transfer_entities_elastic_search`, first guarantees connectivity.  On a
store with no client handle, the transfer operation succeeds without ever
issuing a connect and leaves the handle absent. -/
theorem C4_counterexample :
    discStore.connected = false ∧
    DataStore.transfer_entities_elastic_search discStore demoConfig demoBackend =
      Except.ok (discStore,
        ([], { source := "http://source:9200",
               destination := some "http://dest:9200" })) :=
  ⟨rfl, rfl⟩

/-- C4 (amended): every public operation except
`transfer_entities_elastic_search` re-creates the backend handle first
when none exists — starting disconnected, each operation issues the
connect as its first backend call and completes on a connected state —
whereas `transfer_entities_elastic_search` performs no connectivity step
at all and leaves a disconnected store disconnected. -/
theorem C4_connect_first (ds : DataStore) (be : Backend) (es : ESState)
    (cfg : NerConfig) (cs : ConnectionSettings) (en sn dt ci cdt li u : String)
    (hc : ds.connected = false) (he : ds.engine = ELASTICSEARCH)
    (hok : be.connect_ok = true)
    (hsn : ds.conn_settings.index_name = some sn)
    (hdt : ds.conn_settings.doc_type = some dt)
    (hci : ds.conn_settings.crf_index_name = some ci)
    (hcdt : ds.conn_settings.crf_doc_type = some cdt)
    (hli : be.live_index sn = some li)
    (hcfg : cfg.lookup ds.engine = some cs)
    (hurl : cs.connection_url = some u) :
    ds.create be es =
      Except.ok ({ ds with store_name := sn, connected := true },
        ((es.createIndex sn).createIndex ci,
         [ESCall.connect, ESCall.createEntityIndex sn dt, ESCall.createCrfIndex ci cdt])) ∧
    ds.delete be es =
      Except.ok ({ ds with store_name := sn, connected := true },
        (es.deleteIndex sn, [ESCall.connect, ESCall.deleteIndex sn])) ∧
    ds.existsOp be es =
      Except.ok ({ ds with store_name := sn, connected := true },
        (es.existsIndex sn, [ESCall.connect, ESCall.existsIndex sn])) ∧
    ds.populate be =
      Except.ok ({ ds with store_name := sn, connected := true },
        ([ESCall.connect, ESCall.createAllDictionaryData sn dt], RetVal.pyNone)) ∧
    ds.repopulate be =
      Except.ok ({ ds with store_name := sn, connected := true },
        ([ESCall.connect, ESCall.recreateAllDictionaryData sn dt], RetVal.pyNone)) ∧
    ds.get_entity_dictionary be en =
      Except.ok ({ ds with store_name := sn, connected := true },
        ([ESCall.connect, ESCall.dictionaryQuery sn dt en],
         RetVal.fromBackend (ESCall.dictionaryQuery sn dt en))) ∧
    ds.get_similar_dictionary be en =
      Except.ok ({ ds with store_name := sn, connected := true },
        ([ESCall.connect, ESCall.fullTextQuery sn dt en],
         RetVal.fromBackend (ESCall.fullTextQuery sn dt en))) ∧
    ds.delete_entity be en =
      Except.ok ({ ds with store_name := sn, connected := true },
        ([ESCall.connect, ESCall.deleteEntityByName sn dt en], RetVal.pyNone)) ∧
    ds.update_entity_data be en =
      Except.ok ({ ds with store_name := sn, connected := true },
        ([ESCall.connect, ESCall.getCurrentLiveIndex sn,
          ESCall.entityDataUpdate li dt en], RetVal.pyNone)) ∧
    ds.get_entity_supported_languages be en =
      Except.ok ({ ds with store_name := sn, connected := true },
        ([ESCall.connect, ESCall.getEntitySupportedLanguages sn dt en],
         RetVal.fromBackend (ESCall.getEntitySupportedLanguages sn dt en))) ∧
    ds.get_entity_unique_values be en =
      Except.ok ({ ds with store_name := sn, connected := true },
        ([ESCall.connect, ESCall.getEntityUniqueValues sn dt en],
         RetVal.fromBackend (ESCall.getEntityUniqueValues sn dt en))) ∧
    ds.delete_entity_data_by_values be en =
      Except.ok ({ ds with store_name := sn, connected := true },
        ([ESCall.connect, ESCall.getCurrentLiveIndex sn,
          ESCall.deleteEntityDataByValues li dt en], RetVal.pyNone)) ∧
    ds.add_entity_data be en =
      Except.ok ({ ds with store_name := sn, connected := true },
        ([ESCall.connect, ESCall.getCurrentLiveIndex sn,
          ESCall.addEntityData li dt en], RetVal.pyNone)) ∧
    ds.get_entity_data be en =
      Except.ok ({ ds with store_name := sn, connected := true },
        ([ESCall.connect, ESCall.getEntityData sn dt en],
         RetVal.fromBackend (ESCall.getEntityData sn dt en))) ∧
    ds.get_crf_data_for_entity_name be en =
      Except.ok ({ ds with store_name := sn, connected := true },
        ([ESCall.connect, ESCall.getCrfDataForEntityName ci cdt en],
         RetVal.fromBackend (ESCall.getCrfDataForEntityName ci cdt en))) ∧
    ds.update_entity_crf_data be en =
      Except.ok ({ ds with store_name := sn, connected := true },
        ([ESCall.connect, ESCall.updateEntityCrfDataPopulate ci cdt en],
         RetVal.pyNone)) ∧
    ds.transfer_entities_elastic_search cfg be =
      Except.ok (ds, ([], { source := u, destination := cs.destination_url })) := by
  rw [he] at hcfg
  simp [DataStore.create, DataStore.delete, DataStore.existsOp, DataStore.populate,
    DataStore.repopulate, DataStore.get_entity_dictionary, DataStore.get_similar_dictionary,
    DataStore.delete_entity, DataStore.update_entity_data,
    DataStore.get_entity_supported_languages, DataStore.get_entity_unique_values,
    DataStore.delete_entity_data_by_values, DataStore.add_entity_data,
    DataStore.get_entity_data, DataStore.get_crf_data_for_entity_name,
    DataStore.update_entity_crf_data, DataStore.transfer_entities_elastic_search,
    DataStore.ensureConnected, DataStore.connectES, DataStore.check_doc_type,
    DataStore.check_doc_type_crf, bind, Except.bind,
    hc, he, hok, hsn, hdt, hci, hcdt, hli, hcfg, hurl]

/-- C4 witness: the amended theorem applied to the concrete disconnected
store, the demo backend and the demo configuration. -/
theorem C4_witness :
    DataStore.get_entity_dictionary discStore demoBackend "city" =
      Except.ok ({ discStore with store_name := "entities", connected := true },
        ([ESCall.connect, ESCall.dictionaryQuery "entities" "data" "city"],
         RetVal.fromBackend (ESCall.dictionaryQuery "entities" "data" "city"))) :=
  (C4_connect_first discStore demoBackend ⟨[]⟩ demoConfig demoSettings
    "city" "entities" "data" "crf_index" "crf_data" "entities_v2" "http://source:9200"
    rfl rfl rfl rfl rfl rfl rfl rfl rfl rfl).2.2.2.2.2.1

/-! ### C5 — connection creation time -/

/-- Inverts a successful `_connect`: the resulting store is connected,
still targets elasticsearch, and exactly one connect call was issued. -/
theorem connectES_ok_inv (ds ds1 : DataStore) (be : Backend) (t : List ESCall)
    (h : ds.connectES be = Except.ok (ds1, t)) :
    ds1.connected = true ∧ ds1.engine = ELASTICSEARCH ∧ t = [ESCall.connect] := by
  unfold DataStore.connectES at h
  by_cases he : ds.engine = ELASTICSEARCH
  · by_cases hb : be.connect_ok = true
    · rw [if_pos he, if_pos hb] at h
      simp only [Except.ok.injEq, Prod.mk.injEq] at h
      obtain ⟨h1, h2⟩ := h
      subst h1
      subst h2
      exact ⟨rfl, he, rfl⟩
    · rw [if_pos he, if_neg hb] at h
      exact Except.noConfusion h
  · rw [if_neg he] at h
    exact Except.noConfusion h

/-- Inverts a successful `__init__`: the constructed store already holds
a live handle and construction itself issued the connect call. -/
theorem init_ok_inv (cfg : NerConfig) (be : Backend) (ds : DataStore) (t : List ESCall)
    (h : DataStore.init cfg be = Except.ok (ds, t)) :
    ds.connected = true ∧ ds.engine = ELASTICSEARCH ∧ t = [ESCall.connect] := by
  unfold DataStore.init at h
  rcases hcE : cfg.engine with _ | eng <;> rw [hcE] at h
  · exact Except.noConfusion h
  · replace h : (match cfg.lookup eng with
        | none => Except.error (DSError.improperlyConfigured none)
        | some cs =>
          DataStore.connectES
            { engine := eng, conn_settings := cs, store_name := "", connected := false } be) =
        Except.ok (ds, t) := h
    rcases hcL : cfg.lookup eng with _ | cs <;> rw [hcL] at h
    · exact Except.noConfusion h
    · exact connectES_ok_inv _ _ _ _ h

/-- C5 counterexample: the claim says constructing the datastore does not
open a connection.  Constructing it over the demo configuration
immediately opens one: the result is already connected and the
constructor itself issued the connect call. -/
theorem C5_counterexample :
    DataStore.init demoConfig demoBackend =
      Except.ok (demoStore, [ESCall.connect]) ∧
    demoStore.connected = true :=
  ⟨rfl, rfl⟩

/-- C5 (amended): the backend handle is created eagerly by the
constructor — a successful construction already holds a live handle,
created by the connect call the constructor itself issued — and
afterwards the handle is re-created lazily only when absent: an
operation on the connected store issues no further connect. -/
theorem C5_eager_construction (cfg : NerConfig) (be : Backend) (ds : DataStore)
    (t : List ESCall) (en dt : String)
    (h : DataStore.init cfg be = Except.ok (ds, t))
    (hdt : ds.conn_settings.doc_type = some dt) :
    ds.connected = true ∧ t = [ESCall.connect] ∧
    ds.get_entity_dictionary be en =
      Except.ok (ds, ([ESCall.dictionaryQuery ds.store_name dt en],
        RetVal.fromBackend (ESCall.dictionaryQuery ds.store_name dt en))) := by
  obtain ⟨h1, h2, h3⟩ := init_ok_inv cfg be ds t h
  refine ⟨h1, h3, ?_⟩
  simp [DataStore.get_entity_dictionary, DataStore.ensureConnected,
    DataStore.check_doc_type, bind, Except.bind, h1, h2, hdt]

/-- C5 witness: the amended theorem applied to the demo configuration and
backend. -/
theorem C5_witness :
    demoStore.connected = true ∧
    [ESCall.connect] = [ESCall.connect] ∧
    DataStore.get_entity_dictionary demoStore demoBackend "city" =
      Except.ok (demoStore, ([ESCall.dictionaryQuery demoStore.store_name "data" "city"],
        RetVal.fromBackend (ESCall.dictionaryQuery demoStore.store_name "data" "city"))) :=
  C5_eager_construction demoConfig demoBackend demoStore [ESCall.connect] "city" "data"
    rfl rfl

/-! ### C6 — construction-time validation -/

/-- C6: construction fails with the configuration error when the engine
key is missing or the per-engine settings object is missing, and with
`EngineNotImplementedException` when the configured engine is not the
elasticsearch backend. -/
theorem C6_construction_validation (cfg : NerConfig) (be : Backend) :
    (cfg.engine = none →
      DataStore.init cfg be = Except.error (DSError.improperlyConfigured none)) ∧
    (∀ eng, cfg.engine = some eng → cfg.lookup eng = none →
      DataStore.init cfg be = Except.error (DSError.improperlyConfigured none)) ∧
    (∀ eng cs, cfg.engine = some eng → cfg.lookup eng = some cs →
      eng ≠ ELASTICSEARCH →
      DataStore.init cfg be = Except.error DSError.engineNotImplemented) := by
  refine ⟨fun h => ?_, fun eng h1 h2 => ?_, fun eng cs h1 h2 h3 => ?_⟩
  · simp [DataStore.init, h]
  · simp [DataStore.init, h1, h2]
  · simp [DataStore.init, DataStore.connectES, h1, h2, h3]

/-- A configuration selecting an engine that has no implementation. -/
def mysqlConfig : NerConfig :=
  { engine := some "mysql", settings := [("mysql", {})] }

/-- C6 witness: an unimplemented engine name makes construction raise
`EngineNotImplementedException`. -/
theorem C6_witness :
    DataStore.init mysqlConfig demoBackend =
      Except.error DSError.engineNotImplemented :=
  (C6_construction_validation mysqlConfig demoBackend).2.2 "mysql" {} rfl rfl (by decide)

/-! ### C7 — index lifecycle algebra (spec-modelled backend) -/

/-- Creating an index twice is the same as creating it once. -/
theorem ESState.createIndex_idem (es : ESState) (n : String) :
    (es.createIndex n).createIndex n = es.createIndex n := by
  unfold ESState.createIndex
  by_cases h : n ∈ es.indices
  · simp [h]
  · simp [h]

/-- A just-created index exists. -/
theorem ESState.existsIndex_createIndex (es : ESState) (n : String) :
    (es.createIndex n).existsIndex n = true := by
  unfold ESState.createIndex ESState.existsIndex
  by_cases h : n ∈ es.indices
  · simp [h]
  · simp [h]

/-- Creating another index preserves existence. -/
theorem ESState.existsIndex_createIndex_mono (es : ESState) (n m : String)
    (h : es.existsIndex n = true) :
    (es.createIndex m).existsIndex n = true := by
  unfold ESState.createIndex ESState.existsIndex at *
  by_cases hm : m ∈ es.indices
  · simpa [hm] using h
  · simp [hm, List.mem_cons]
    simp at h
    exact Or.inr h

/-- A just-deleted index does not exist. -/
theorem ESState.existsIndex_deleteIndex (es : ESState) (n : String) :
    (es.deleteIndex n).existsIndex n = false := by
  unfold ESState.deleteIndex ESState.existsIndex
  simp [List.mem_filter]

/-- C7: on a connected, properly configured store, `create` succeeds, a
second `create` on the resulting index state succeeds again (the
already-exists response is tolerated), `exists` is true after `create`,
`delete` succeeds on any index state (the not-found response is
tolerated), and `exists` is false after `delete`. -/
theorem C7_index_lifecycle (ds : DataStore) (be : Backend) (es : ESState) (dt : String)
    (hc : ds.connected = true) (he : ds.engine = ELASTICSEARCH)
    (hdt : ds.conn_settings.doc_type = some dt)
    (hcrf : ds.conn_settings.crf_index_name = none ∨
      ∃ c, ds.conn_settings.crf_doc_type = some c) :
    (∃ es1 t1, ds.create be es = Except.ok (ds, (es1, t1)) ∧
      (∃ es2 t2, ds.create be es1 = Except.ok (ds, (es2, t2))) ∧
      ds.existsOp be es1 =
        Except.ok (ds, (true, [ESCall.existsIndex ds.store_name]))) ∧
    ds.delete be es =
      Except.ok (ds, (es.deleteIndex ds.store_name, [ESCall.deleteIndex ds.store_name])) ∧
    ds.existsOp be (es.deleteIndex ds.store_name) =
      Except.ok (ds, (false, [ESCall.existsIndex ds.store_name])) := by
  have hdel : ds.delete be es =
      Except.ok (ds, (es.deleteIndex ds.store_name, [ESCall.deleteIndex ds.store_name])) := by
    simp [DataStore.delete, DataStore.ensureConnected, bind, Except.bind, hc, he]
  have hexdel : ds.existsOp be (es.deleteIndex ds.store_name) =
      Except.ok (ds, (false, [ESCall.existsIndex ds.store_name])) := by
    simp [DataStore.existsOp, DataStore.ensureConnected, bind, Except.bind, hc, he,
      ESState.existsIndex_deleteIndex]
  rcases hcrf with hnone | ⟨c, hsome⟩
  · refine ⟨⟨es.createIndex ds.store_name,
      [ESCall.createEntityIndex ds.store_name dt], ?_, ?_, ?_⟩, hdel, hexdel⟩
    · simp [DataStore.create, DataStore.ensureConnected, DataStore.check_doc_type,
        bind, Except.bind, hc, he, hdt, hnone]
    · refine ⟨(es.createIndex ds.store_name).createIndex ds.store_name,
        [ESCall.createEntityIndex ds.store_name dt], ?_⟩
      simp [DataStore.create, DataStore.ensureConnected, DataStore.check_doc_type,
        bind, Except.bind, hc, he, hdt, hnone]
    · simp [DataStore.existsOp, DataStore.ensureConnected, bind, Except.bind, hc, he,
        ESState.existsIndex_createIndex]
  · rcases hci : ds.conn_settings.crf_index_name with _ | ci
    · refine ⟨⟨es.createIndex ds.store_name,
        [ESCall.createEntityIndex ds.store_name dt], ?_, ?_, ?_⟩, hdel, hexdel⟩
      · simp [DataStore.create, DataStore.ensureConnected, DataStore.check_doc_type,
          bind, Except.bind, hc, he, hdt, hci]
      · refine ⟨(es.createIndex ds.store_name).createIndex ds.store_name,
          [ESCall.createEntityIndex ds.store_name dt], ?_⟩
        simp [DataStore.create, DataStore.ensureConnected, DataStore.check_doc_type,
          bind, Except.bind, hc, he, hdt, hci]
      · simp [DataStore.existsOp, DataStore.ensureConnected, bind, Except.bind, hc, he,
          ESState.existsIndex_createIndex]
    · refine ⟨⟨(es.createIndex ds.store_name).createIndex ci,
        [ESCall.createEntityIndex ds.store_name dt, ESCall.createCrfIndex ci c],
        ?_, ?_, ?_⟩, hdel, hexdel⟩
      · simp [DataStore.create, DataStore.ensureConnected, DataStore.check_doc_type,
          DataStore.check_doc_type_crf, bind, Except.bind, hc, he, hdt, hci, hsome]
      · refine ⟨((es.createIndex ds.store_name).createIndex ci).createIndex
          ds.store_name |>.createIndex ci,
          [ESCall.createEntityIndex ds.store_name dt, ESCall.createCrfIndex ci c], ?_⟩
        simp [DataStore.create, DataStore.ensureConnected, DataStore.check_doc_type,
          DataStore.check_doc_type_crf, bind, Except.bind, hc, he, hdt, hci, hsome]
      · simp [DataStore.existsOp, DataStore.ensureConnected, bind, Except.bind, hc, he,
          ESState.existsIndex_createIndex_mono _ _ _
            (ESState.existsIndex_createIndex es ds.store_name)]

/-- C7 witness: the lifecycle theorem applied to the demo store over an
initially empty cluster. -/
theorem C7_witness :
    (∃ es1 t1, DataStore.create demoStore demoBackend ⟨[]⟩ =
        Except.ok (demoStore, (es1, t1)) ∧
      (∃ es2 t2, DataStore.create demoStore demoBackend es1 =
        Except.ok (demoStore, (es2, t2))) ∧
      DataStore.existsOp demoStore demoBackend es1 =
        Except.ok (demoStore, (true, [ESCall.existsIndex demoStore.store_name]))) ∧
    DataStore.delete demoStore demoBackend ⟨[]⟩ =
      Except.ok (demoStore, ((ESState.deleteIndex ⟨[]⟩ demoStore.store_name),
        [ESCall.deleteIndex demoStore.store_name])) ∧
    DataStore.existsOp demoStore demoBackend (ESState.deleteIndex ⟨[]⟩ demoStore.store_name) =
      Except.ok (demoStore, (false, [ESCall.existsIndex demoStore.store_name])) :=
  C7_index_lifecycle demoStore demoBackend ⟨[]⟩ "data" rfl rfl rfl
    (Or.inr ⟨"crf_data", rfl⟩)

/-! ### C8 — cross-cluster transfer URL resolution -/

/-- C8: the transfer operation raises `NonESEngineTransferException` for
any non-elasticsearch engine; otherwise the source URL is the configured
`connection_url`, or the backend discovery URL when that key is absent,
and when both are absent the operation raises
`DataStoreSettingsImproperlyConfiguredException`; the destination URL is
taken from the configuration. -/
theorem C8_transfer_url_resolution (ds : DataStore) (cfg : NerConfig) (be : Backend) :
    (ds.engine ≠ ELASTICSEARCH →
      ds.transfer_entities_elastic_search cfg be =
        Except.error DSError.nonESEngineTransfer) ∧
    (∀ cs u, ds.engine = ELASTICSEARCH → cfg.lookup ds.engine = some cs →
      cs.connection_url = some u →
      ds.transfer_entities_elastic_search cfg be =
        Except.ok (ds, ([], { source := u, destination := cs.destination_url }))) ∧
    (∀ cs u, ds.engine = ELASTICSEARCH → cfg.lookup ds.engine = some cs →
      cs.connection_url = none → be.es_url = some u →
      ds.transfer_entities_elastic_search cfg be =
        Except.ok (ds, ([], { source := u, destination := cs.destination_url }))) ∧
    (∀ cs, ds.engine = ELASTICSEARCH → cfg.lookup ds.engine = some cs →
      cs.connection_url = none → be.es_url = none →
      ds.transfer_entities_elastic_search cfg be =
        Except.error (DSError.improperlyConfigured none)) := by
  refine ⟨fun h => ?_, fun cs u he hcfg hurl => ?_, fun cs u he hcfg hurl hdisc => ?_,
    fun cs he hcfg hurl hdisc => ?_⟩
  · simp [DataStore.transfer_entities_elastic_search, h]
  · rw [he] at hcfg
    simp [DataStore.transfer_entities_elastic_search, he, hcfg, hurl]
  · rw [he] at hcfg
    simp [DataStore.transfer_entities_elastic_search, he, hcfg, hurl, hdisc]
  · rw [he] at hcfg
    simp [DataStore.transfer_entities_elastic_search, he, hcfg, hurl, hdisc]

/-- C8 witness: with a configured `connection_url`, the transfer resolves
the source from the configuration and the destination from
`destination_url`. -/
theorem C8_witness :
    DataStore.transfer_entities_elastic_search demoStore demoConfig demoBackend =
      Except.ok (demoStore, ([], { source := "http://source:9200",
                                   destination := some "http://dest:9200" })) :=
  (C8_transfer_url_resolution demoStore demoConfig demoBackend).2.1
    demoSettings "http://source:9200" rfl rfl rfl

/-! ### C9 — return values when the engine branch is not taken -/

/-- A connected store whose engine is not elasticsearch. -/
def mysqlStore : DataStore :=
  { engine := "mysql", conn_settings := {}, store_name := "", connected := true }

/-- C9: with a live handle but a non-elasticsearch engine at call time,
`get_entity_dictionary`, `get_similar_dictionary` and
`get_crf_data_for_entity_name` return a fresh empty (ordered) dictionary,
while `get_entity_supported_languages`, `get_entity_unique_values` and
`get_entity_data` fall off the end of the function and return `None`. -/
theorem C9_non_es_returns (ds : DataStore) (be : Backend) (en : String)
    (hc : ds.connected = true) (he : ds.engine ≠ ELASTICSEARCH) :
    ds.get_entity_dictionary be en = Except.ok (ds, ([], RetVal.emptyDict)) ∧
    ds.get_similar_dictionary be en = Except.ok (ds, ([], RetVal.emptyOrderedDict)) ∧
    ds.get_crf_data_for_entity_name be en = Except.ok (ds, ([], RetVal.emptyDict)) ∧
    ds.get_entity_supported_languages be en = Except.ok (ds, ([], RetVal.pyNone)) ∧
    ds.get_entity_unique_values be en = Except.ok (ds, ([], RetVal.pyNone)) ∧
    ds.get_entity_data be en = Except.ok (ds, ([], RetVal.pyNone)) := by
  simp [DataStore.get_entity_dictionary, DataStore.get_similar_dictionary,
    DataStore.get_crf_data_for_entity_name, DataStore.get_entity_supported_languages,
    DataStore.get_entity_unique_values, DataStore.get_entity_data,
    DataStore.ensureConnected, bind, Except.bind, hc, he]

/-- C9 witness: the theorem applied to a connected store configured with
an engine that is not elasticsearch. -/
theorem C9_witness :
    DataStore.get_entity_dictionary mysqlStore demoBackend "city" =
      Except.ok (mysqlStore, ([], RetVal.emptyDict)) :=
  (C9_non_es_returns mysqlStore demoBackend "city" rfl (by decide)).1

/-! ### C10 — delete skips the doc-type check -/

/-- A connected elasticsearch store whose settings lack the dictionary
doc type. -/
def noDocTypeStore : DataStore :=
  { engine := ELASTICSEARCH, conn_settings := { index_name := some "entities" },
    store_name := "entities", connected := true }

/-- C10: on a connected elasticsearch store whose settings lack the
dictionary doc type, the structural `delete` proceeds and succeeds,
while `create`, `populate`, `delete_entity` and every dictionary query
operation raise `DataStoreSettingsImproperlyConfiguredException`. -/
theorem C10_delete_skips_doc_type (ds : DataStore) (be : Backend) (es : ESState)
    (en : String) (hc : ds.connected = true) (he : ds.engine = ELASTICSEARCH)
    (hdt : ds.conn_settings.doc_type = none) :
    ds.delete be es =
      Except.ok (ds, (es.deleteIndex ds.store_name, [ESCall.deleteIndex ds.store_name])) ∧
    ds.create be es = Except.error (DSError.improperlyConfigured dictDocTypeMsg) ∧
    ds.populate be = Except.error (DSError.improperlyConfigured dictDocTypeMsg) ∧
    ds.delete_entity be en = Except.error (DSError.improperlyConfigured dictDocTypeMsg) ∧
    ds.get_entity_dictionary be en =
      Except.error (DSError.improperlyConfigured dictDocTypeMsg) ∧
    ds.get_similar_dictionary be en =
      Except.error (DSError.improperlyConfigured dictDocTypeMsg) ∧
    ds.get_entity_supported_languages be en =
      Except.error (DSError.improperlyConfigured dictDocTypeMsg) ∧
    ds.get_entity_unique_values be en =
      Except.error (DSError.improperlyConfigured dictDocTypeMsg) ∧
    ds.get_entity_data be en =
      Except.error (DSError.improperlyConfigured dictDocTypeMsg) := by
  simp [DataStore.delete, DataStore.create, DataStore.populate, DataStore.delete_entity,
    DataStore.get_entity_dictionary, DataStore.get_similar_dictionary,
    DataStore.get_entity_supported_languages, DataStore.get_entity_unique_values,
    DataStore.get_entity_data, DataStore.ensureConnected, DataStore.check_doc_type,
    bind, Except.bind, hc, he, hdt]

/-- C10 witness: the theorem applied to a concrete store missing the doc
type, over an empty cluster. -/
theorem C10_witness :
    DataStore.delete noDocTypeStore demoBackend ⟨[]⟩ =
      Except.ok (noDocTypeStore, ((ESState.deleteIndex ⟨[]⟩ noDocTypeStore.store_name),
        [ESCall.deleteIndex noDocTypeStore.store_name])) ∧
    DataStore.create noDocTypeStore demoBackend ⟨[]⟩ =
      Except.error (DSError.improperlyConfigured dictDocTypeMsg) :=
  ⟨(C10_delete_skips_doc_type noDocTypeStore demoBackend ⟨[]⟩ "city" rfl rfl rfl).1,
   (C10_delete_skips_doc_type noDocTypeStore demoBackend ⟨[]⟩ "city" rfl rfl rfl).2.1⟩

end ChatbotNer
